import Mathlib

/-!
Shallow embedding of the splash-bot repository (src/main.py and src/bot.py):
the sliding-window rate limiter, the Unsplash API request path, the
download-tracking ping, the per-conversation browse-session store, and the
inline-button callback handler.

Time is modelled as integer instants (the code uses `datetime.now()` and
compares differences against `timedelta(seconds=W)`); a window is the list of
recorded request instants, oldest first, exactly as the Python `deque`.
Network effects are modelled by passing the outcome of the outbound HTTP call
(`response status body`, `timeout`, or `clientError`) as an explicit argument.
-/

deriving instance DecidableEq for Except

namespace SplashBot

/-- Outcome of one outbound HTTP `session.get`: either an HTTP response with a
status code and a parsed body, or no response at all (an `asyncio.TimeoutError`
or an `aiohttp.ClientError` raised before any response arrived). -/
inductive NetOutcome (α : Type) where
  | response (status : Nat) (body : α)
  | timeout
  | clientError
deriving DecidableEq

/-- The error taxonomy of the request path (§7 of the spec): the raise sites of
`_request` in src/main.py (and `request` in src/bot.py). -/
inductive ApiError where
  | quotaExceeded (resetEta : Option Int)
  | upstreamThrottled
  | upstreamError (status : Nat)
  | networkTimeout
  | networkError
deriving DecidableEq

/-- Result of one call through the admission choke point: the limiter state
after the call, whether the outbound HTTP call was actually issued, and the
value or error returned to the caller. -/
structure RequestResult (L : Type) (α : Type) where
  limiter : L
  outboundIssued : Bool
  result : Except ApiError α
deriving DecidableEq

namespace MainPy

/-- State of `RateLimiter` in src/main.py: `max_requests` (default 50), `time_window`
in seconds (default 3600), and `requests`, the deque of recorded instants,
oldest first. -/
structure RateLimiter where
  max_requests : Nat
  time_window : Int
  requests : List Int
deriving DecidableEq

/-- The purge loop of src/main.py (lines 41-42 and 55-56):
`while self.requests and (now - self.requests[0]) > timedelta(seconds=self.time_window): popleft()`.
Note the strict `>`: an entry whose age is exactly `time_window` is kept. -/
def purge (now W : Int) : List Int → List Int
  | [] => []
  | t :: ts => if now - t > W then purge now W ts else t :: ts

/-- Embedding of `RateLimiter.can_request` (src/main.py lines 36-44): purge from the front,
then report `len(self.requests) < self.max_requests`.  The purge mutates the
deque, so the updated limiter is returned alongside the boolean. -/
def RateLimiter.can_request (now : Int) (rl : RateLimiter) : Bool × RateLimiter :=
  let rq := purge now rl.time_window rl.requests
  (decide (rq.length < rl.max_requests), { rl with requests := rq })

/-- Embedding of `RateLimiter.add_request` (src/main.py lines 46-48): append `now` to the
back of the deque. -/
def RateLimiter.add_request (now : Int) (rl : RateLimiter) : RateLimiter :=
  { rl with requests := rl.requests ++ [now] }

/-- Embedding of `RateLimiter.get_remaining` (src/main.py lines 50-58): purge, then return
`self.max_requests - len(self.requests)` — a plain Python `int` subtraction,
with no flooring at 0. -/
def RateLimiter.get_remaining (now : Int) (rl : RateLimiter) : Int × RateLimiter :=
  let rq := purge now rl.time_window rl.requests
  ((rl.max_requests : Int) - rq.length, { rl with requests := rq })

/-- Embedding of `RateLimiter.get_reset_time` (src/main.py lines 60-74), reduced to the
number of seconds until the oldest entry ages out (the code formats this as a
`"m:ss"` string). -/
def RateLimiter.get_reset_time (now : Int) (rl : RateLimiter) : Option Int :=
  match rl.requests with
  | [] => none
  | oldest :: _ =>
    let remaining := oldest + rl.time_window - now
    if remaining > 0 then some remaining else none

/-- Embedding of `UnsplashAPI._request` (src/main.py lines 105-135).  `tCheck` is the
instant of the admission check, `tRecord` the instant `add_request` would run.
The admission check runs first and raises on refusal; otherwise the outbound
GET is issued and `add_request` runs only once a response object exists — it
is the first statement inside the `async with` block, before the status-code
checks, so it is skipped entirely when `session.get` raises a timeout or a
transport error. -/
def _request {α : Type} (rl : RateLimiter) (tCheck tRecord : Int)
    (net : NetOutcome α) : RequestResult RateLimiter α :=
  match rl.can_request tCheck with
  | (ok, rl1) =>
    if ok then
      match net with
      | .timeout => ⟨rl1, true, .error .networkTimeout⟩
      | .clientError => ⟨rl1, true, .error .networkError⟩
      | .response status body =>
        let rl2 := rl1.add_request tRecord
        if status = 429 then ⟨rl2, true, .error .upstreamThrottled⟩
        else if 400 ≤ status then ⟨rl2, true, .error (.upstreamError status)⟩
        else ⟨rl2, true, .ok body⟩
    else ⟨rl1, false, .error (.quotaExceeded (rl1.get_reset_time tCheck))⟩

/-- Embedding of `UnsplashAPI.get_random_photo` (src/main.py lines 137-150): builds the
query/orientation params and delegates to `_request "/photos/random"`. -/
def get_random_photo {α : Type} (rl : RateLimiter) (query orientation : Option String)
    (tCheck tRecord : Int) (net : NetOutcome α) : RequestResult RateLimiter α :=
  _request rl tCheck tRecord net

/-- Embedding of `UnsplashAPI.search_photos` (src/main.py lines 152-173): builds the
query/page/per_page/orientation/color params and delegates to
`_request "/search/photos"`. -/
def search_photos {α : Type} (rl : RateLimiter) (query : String)
    (page per_page : Nat) (orientation color : Option String)
    (tCheck tRecord : Int) (net : NetOutcome α) : RequestResult RateLimiter α :=
  _request rl tCheck tRecord net

/-- Embedding of `UnsplashAPI.track_download` (src/main.py lines 175-184).
`await self.init_session()` stands OUTSIDE the `try`, so an error raised while
lazily creating the HTTP session propagates to the caller and the GET is never
attempted; the GET itself sits inside `try/except: pass`, so its outcome is
swallowed.  Returns the caller-visible outcome and the number of GET attempts
made against the tracking URL. -/
def track_download (initOutcome getOutcome : Except String Unit) :
    Except String Unit × Nat :=
  match initOutcome with
  | .error e => (.error e, 0)
  | .ok _ =>
    match getOutcome with
    | _ => (.ok (), 1)

end MainPy

namespace BotPy

/-- State of `RateLimiter` in src/bot.py: the limits 50 requests / 3600 seconds are
hard-coded; the state is only the deque of recorded instants. -/
structure RateLimiter where
  requests : List Int
deriving DecidableEq

/-- The purge loop of src/bot.py (lines 23-24 and 32-33):
`while self.requests and (now - self.requests[0]).total_seconds() >= 3600: popleft()`.
Unlike src/main.py this bound is inclusive: age exactly 3600 is purged. -/
def purge (now : Int) : List Int → List Int
  | [] => []
  | t :: ts => if now - t ≥ 3600 then purge now ts else t :: ts

/-- Embedding of `RateLimiter.can_request` (src/bot.py lines 21-25). -/
def RateLimiter.can_request (now : Int) (rl : RateLimiter) : Bool × RateLimiter :=
  let rq := purge now rl.requests
  (decide (rq.length < 50), ⟨rq⟩)

/-- Embedding of `RateLimiter.add` (src/bot.py lines 27-28). -/
def RateLimiter.add (now : Int) (rl : RateLimiter) : RateLimiter :=
  ⟨rl.requests ++ [now]⟩

/-- Embedding of `RateLimiter.remaining` (src/bot.py lines 30-34): purge, then
`50 - len(self.requests)`, again with no floor. -/
def RateLimiter.remaining (now : Int) (rl : RateLimiter) : Int × RateLimiter :=
  let rq := purge now rl.requests
  ((50 : Int) - rq.length, ⟨rq⟩)

/-- Embedding of `UnsplashAPI.request` (src/bot.py lines 57-72): same shape as
`MainPy._request` — refusal raises before the GET; `self.limiter.add()` is the
first statement inside the `async with` block, so nothing is recorded when the
GET raises before a response exists (src/bot.py has no `except` here, the raw
exception propagates, modelled by the same timeout/network error kinds). -/
def request {α : Type} (rl : RateLimiter) (tCheck tRecord : Int)
    (net : NetOutcome α) : RequestResult RateLimiter α :=
  match rl.can_request tCheck with
  | (ok, rl1) =>
    if ok then
      match net with
      | .timeout => ⟨rl1, true, .error .networkTimeout⟩
      | .clientError => ⟨rl1, true, .error .networkError⟩
      | .response status body =>
        let rl2 := rl1.add tRecord
        if status = 429 then ⟨rl2, true, .error .upstreamThrottled⟩
        else if 400 ≤ status then ⟨rl2, true, .error (.upstreamError status)⟩
        else ⟨rl2, true, .ok body⟩
    else
      match rl1.remaining tCheck with
      | (r, rl2) => ⟨rl2, false, .error (.quotaExceeded (some r))⟩

/-- Embedding of `UnsplashAPI.track_download` (src/bot.py lines 84-90): here BOTH the lazy
`init()` and the GET sit inside the `try`, so every failure is swallowed; a
failed `init()` means the GET is never attempted. -/
def track_download (initOutcome getOutcome : Except String Unit) :
    Except String Unit × Nat :=
  match initOutcome with
  | .error _ => (.ok (), 0)
  | .ok _ =>
    match getOutcome with
    | _ => (.ok (), 1)

end BotPy

/-! ### Python string splitting

`str.split(sep, maxsplit)` as used by the callback router in src/main.py:
scan left to right, cut at the separator at most `maxsplit` times, and leave
the remainder (separators included) as the final part. -/

/-- Find the first occurrence of `sep`: returns the characters before it and
the characters after it, or `none` when `sep` does not occur. -/
def splitFirstAux (sep : Char) : List Char → Option (List Char × List Char)
  | [] => none
  | c :: cs =>
    if c = sep then some ([], cs)
    else Option.map (fun p => (c :: p.1, p.2)) (splitFirstAux sep cs)

/-- Split a character list at `sep` at most `maxsplit` times. -/
def pySplitChars (sep : Char) : Nat → List Char → List (List Char)
  | 0, cs => [cs]
  | m + 1, cs =>
    match splitFirstAux sep cs with
    | none => [cs]
    | some (a, b) => a :: pySplitChars sep m b

/-- Python `s.split(sep, maxsplit)` on strings. -/
def pySplit (s : String) (sep : Char) (maxsplit : Nat) : List String :=
  (pySplitChars sep maxsplit s.data).map (fun l => ⟨l⟩)

/-! ### Session keys

src/main.py builds the session key as `f"{chat_id}_{user_id}"` (line 448);
Telegram chat ids are integers (negative for groups).  Decimal rendering of
the ids is embedded directly so that facts about the key's characters can be
proved. -/

/-- Decimal digits of a natural number, most significant first (the digits of
Python `str(n)` for `n ≥ 0`). -/
def natToDigits (n : Nat) : List Char :=
  if n < 10 then [Nat.digitChar n]
  else natToDigits (n / 10) ++ [Nat.digitChar (n % 10)]
termination_by n
decreasing_by exact Nat.div_lt_self (by omega) (by omega)

/-- The characters of Python `str(i)` for an integer `i`. -/
def intToChars (i : Int) : List Char :=
  if i < 0 then '-' :: natToDigits i.natAbs else natToDigits i.natAbs

/-- The session key `f"{chat_id}_{user_id}"` (src/main.py line 448). -/
def mkKey (chatId userId : Int) : String :=
  ⟨intToChars chatId ++ '_' :: intToChars userId⟩

/-! ### The browse-session store (src/main.py, `context.bot_data["search_data"]`)

A Python dict from string keys to mutable session dicts
`{"results": [...], "query": q, "index": i}`, modelled as an association
list in insertion order. -/

/-- One browse session: the ordered result list, the query that produced it,
and the cursor (`"index"`). -/
structure SessionData (α : Type) where
  results : List α
  query : String
  index : Int
deriving DecidableEq

/-- The session store, keyed by `f"{chat_id}_{user_id}"`. -/
abbrev Store (α : Type) := List (String × SessionData α)

/-- Python `dict.get(key)`. -/
def lookupStore {α : Type} : Store α → String → Option (SessionData α)
  | [], _ => none
  | (k', v) :: rest, k => if k' = k then some v else lookupStore rest k

/-- In-place mutation of the session dict fetched from the store
(`search_data["index"] = current_index` aliases the stored object). -/
def updateStore {α : Type} : Store α → String → SessionData α → Store α
  | [], _, _ => []
  | (k', v') :: rest, k, v =>
    if k' = k then (k', v) :: rest else (k', v') :: updateStore rest k v

/-- Python `dict[key] = value`: overwrite-or-insert. -/
def setStore {α : Type} : Store α → String → SessionData α → Store α
  | [], k, v => [(k, v)]
  | (k', v') :: rest, k, v =>
    if k' = k then (k', v) :: rest else (k', v') :: setStore rest k v

namespace MainPy

/-- Caller-visible outcome of `UnsplashBot.search_photos`
(src/main.py lines 425-463). -/
inductive SearchOutcome (α : Type) where
  | errorReply
  | noResults
  | sentPhoto (first : α)
deriving DecidableEq

/-- Embedding of `UnsplashBot.search_photos` (src/main.py lines 425-463), restricted to its
effect on the session store.  `api` is the outcome of
`self.api.search_photos(query=query, per_page=5)`; an exception is caught by
the surrounding `try` and reported (`errorReply`) with the store untouched.
When the result list is empty the handler replies "no results" and returns
BEFORE the store write; only a non-empty list is stored, under
`f"{chat_id}_{user_id}"`, with `index = 0`. -/
def search_photos_handler {α : Type} (store : Store α) (chatId userId : Int)
    (query : String) (api : Except ApiError (List α)) :
    Store α × SearchOutcome α :=
  match api with
  | .error _ => (store, .errorReply)
  | .ok [] => (store, .noResults)
  | .ok (p :: ps) =>
    (setStore store (mkKey chatId userId) ⟨p :: ps, query, 0⟩, .sentPhoto p)

/-- The action `UnsplashBot.button_handler` (src/main.py lines 539-651) decides
on: which outbound call it makes (if any) and what it shows. -/
inductive Effect (α : Type) where
  | randomPhoto (query : Option String)
  | navPhoto (key : String) (index : Int)
  | showFilters
  | filterSearch (query : String) (orientation color : Option String)
  | back
  | nothing
  | errorReply
deriving DecidableEq

/-- Embedding of `UnsplashBot.button_handler` (src/main.py lines 539-651) on a callback
token `data`, restricted to its routing and its effect on the session store:

* `data == "refresh_random"` is special-cased first: an unfiltered
  `get_random_photo()`;
* otherwise `action, key = data.split("_", 1)`, the session is fetched with
  `bot_data["search_data"].get(key)`;
* `next`/`prev` require a session: `index = (index ± 1) % len(results)`
  stored back in place; with no session NO branch matches and the handler
  falls through doing nothing;
* `refresh` requires a session: `get_random_photo(query=session.query)`;
  with no session it also falls through doing nothing;
* `filters` shows the filter keyboard;
* `filter` re-splits `data.split("_", 2)`, takes `parts[1]` as the filter
  type and `parts[2]` as the key, falls back to the literal query `"random"`
  when that key has no session, and issues a one-photo filtered search
  (orientation filter for landscape/portrait/squarish, else a color filter);
* `back` restores the plain keyboard;
* anything else matches no branch.  Exceptions (e.g. the `IndexError` of
  `parts[1]` on a bare `"filter"` token) are caught by the surrounding `try`
  and reported as an error reply. -/
def button_handler {α : Type} (data : String) (store : Store α) :
    Effect α × Store α :=
  if data = "refresh_random" then (.randomPhoto none, store)
  else
    let parts := pySplit data '_' 1
    let action := parts.headD ""
    let key? : Option String := parts[1]?
    let sd? : Option (SessionData α) := key?.bind (lookupStore store)
    if (action = "next" ∨ action = "prev") ∧ sd?.isSome then
      match key?, sd? with
      | some key, some sd =>
        let len : Int := sd.results.length
        let idx := if action = "next" then (sd.index + 1) % len
                   else (sd.index - 1) % len
        (.navPhoto key idx, updateStore store key { sd with index := idx })
      | _, _ => (.nothing, store)
    else if action = "refresh" ∧ sd?.isSome then
      match sd? with
      | some sd => (.randomPhoto (some sd.query), store)
      | none => (.nothing, store)
    else if action = "filters" then (.showFilters, store)
    else if action = "filter" then
      let parts2 := pySplit data '_' 2
      match parts2[1]? with
      | none => (.errorReply, store)
      | some filterType =>
        let key2? : Option String := parts2[2]?
        let searchQuery :=
          match key2?.bind (lookupStore store) with
          | some sd => sd.query
          | none => "random"
        if filterType = "landscape" ∨ filterType = "portrait" ∨ filterType = "squarish" then
          (.filterSearch searchQuery (some filterType) none, store)
        else
          (.filterSearch searchQuery none (some filterType), store)
    else if action = "back" then (.back, store)
    else (.nothing, store)

/-- Repeated presses of the same callback button: iterate `button_handler` on
the store. -/
def iterate_handler {α : Type} (data : String) : Nat → Store α → Store α
  | 0, s => s
  | n + 1, s => iterate_handler data n (button_handler data s).2

end MainPy

/-! ### Call sequences against the rate limiter -/

/-- One call in an arbitrary interleaving of the limiter's two operations. -/
inductive RLCall where
  | canReq (t : Int)
  | record (t : Int)
deriving DecidableEq

/-- Run an arbitrary sequence of `can_request`/`add_request` calls against the
src/main.py limiter. -/
def runCalls (rl : MainPy.RateLimiter) : List RLCall → MainPy.RateLimiter
  | [] => rl
  | .canReq t :: rest => runCalls (rl.can_request t).2 rest
  | .record t :: rest => runCalls (rl.add_request t) rest

/-- The admission-gated discipline of `_request` (src/main.py): at each
instant, `add_request` runs only when `can_request` just returned true. -/
def runAdmitted (rl : MainPy.RateLimiter) : List Int → MainPy.RateLimiter
  | [] => rl
  | t :: ts =>
    match rl.can_request t with
    | (ok, rl1) => runAdmitted (if ok then rl1.add_request t else rl1) ts

/-- Same discipline against the src/bot.py limiter. -/
def runAdmittedBot (rl : BotPy.RateLimiter) : List Int → BotPy.RateLimiter
  | [] => rl
  | t :: ts =>
    match rl.can_request t with
    | (ok, rl1) => runAdmittedBot (if ok then rl1.add t else rl1) ts

/-! ### Two concurrent admission transactions (src/main.py `_request`)

Each handler executes the admission section of `_request` in two primitive
steps, separated in the code by the awaited network call: first
`can_request()` (raise on refusal), then `add_request()`.  A schedule is the
interleaving chosen by the event loop: `true` steps task 1, `false` steps
task 2. -/

/-- Where a task stands in its admission transaction. -/
inductive Phase where
  | start
  | admitted
  | refused
  | recorded
deriving DecidableEq

/-- One primitive step of a task's admission transaction against the shared
limiter. -/
def stepTask (now : Int) : MainPy.RateLimiter × Phase → MainPy.RateLimiter × Phase
  | (rl, .start) =>
    match rl.can_request now with
    | (ok, rl1) => (rl1, if ok then .admitted else .refused)
  | (rl, .admitted) => (rl.add_request now, .recorded)
  | (rl, p) => (rl, p)

/-- Run an interleaving of two admission transactions over the shared
limiter. -/
def runSchedule (now : Int) : List Bool → MainPy.RateLimiter × Phase × Phase →
    MainPy.RateLimiter × Phase × Phase
  | [], s => s
  | b :: bs, (rl, p1, p2) =>
    if b then
      match stepTask now (rl, p1) with
      | (rl', p1') => runSchedule now bs (rl', p1', p2)
    else
      match stepTask now (rl, p2) with
      | (rl', p2') => runSchedule now bs (rl', p1, p2')

/-! ### The purge as the specification words it

The spec sentence behind claim C4 says `canRequest()` purges entries of age
`≥ windowDuration`.  The following pair renders that sentence verbatim (an
inclusive age bound), to be compared with `MainPy.purge`, which the code
writes with a strict bound. -/

/-- Purge as claimed: drop from the front every entry with `now - t ≥ W`. -/
def purgeClaimed (now W : Int) : List Int → List Int
  | [] => []
  | t :: ts => if now - t ≥ W then purgeClaimed now W ts else t :: ts

/-- Rendering of `can_request` as the spec sentence describes it: inclusive-age purge, then
`len(window) < maxRequests`. -/
def can_request_claimed (now : Int) (rl : MainPy.RateLimiter) :
    Bool × MainPy.RateLimiter :=
  let rq := purgeClaimed now rl.time_window rl.requests
  (decide (rq.length < rl.max_requests), { rl with requests := rq })

/-! ## Helper lemmas: the purge -/

theorem purge_length_le (now W : Int) (l : List Int) :
    (MainPy.purge now W l).length ≤ l.length := by
  induction l with
  | nil => simp [MainPy.purge]
  | cons t ts ih =>
    rw [MainPy.purge]
    split
    · exact Nat.le_trans ih (Nat.le_succ _)
    · exact Nat.le_refl _

theorem purge_bot_length_le (now : Int) (l : List Int) :
    (BotPy.purge now l).length ≤ l.length := by
  induction l with
  | nil => simp [BotPy.purge]
  | cons t ts ih =>
    rw [BotPy.purge]
    split
    · exact Nat.le_trans ih (Nat.le_succ _)
    · exact Nat.le_refl _

/-- The purge either empties the window or stops at a first entry that is not
yet expired. -/
theorem purge_head (now W : Int) (l : List Int) :
    MainPy.purge now W l = [] ∨
      ∃ t ts, MainPy.purge now W l = t :: ts ∧ ¬ now - t > W := by
  induction l with
  | nil => left; rfl
  | cons t ts ih =>
    rw [MainPy.purge]
    split
    · exact ih
    · right; exact ⟨t, ts, rfl, by assumption⟩

/-- Purging an already purged window at the same instant changes nothing. -/
theorem purge_idem (now W : Int) (l : List Int) :
    MainPy.purge now W (MainPy.purge now W l) = MainPy.purge now W l := by
  rcases purge_head now W l with h | ⟨t, ts, h, hle⟩
  · rw [h]; rfl
  · rw [h, MainPy.purge, if_neg hle]

/-- Appending the present instant to a purged window and purging again changes
nothing (for a nonnegative window duration). -/
theorem purge_append_now (now W : Int) (hW : 0 ≤ W) (l : List Int) :
    MainPy.purge now W (MainPy.purge now W l ++ [now]) =
      MainPy.purge now W l ++ [now] := by
  rcases purge_head now W l with h | ⟨t, ts, h, hle⟩
  · rw [h]
    show MainPy.purge now W [now] = [now]
    rw [MainPy.purge, if_neg (by omega)]
  · rw [h]
    show MainPy.purge now W (t :: (ts ++ [now])) = t :: ts ++ [now]
    rw [MainPy.purge, if_neg hle]
    rfl

theorem purge_bot_head (now : Int) (l : List Int) :
    BotPy.purge now l = [] ∨
      ∃ t ts, BotPy.purge now l = t :: ts ∧ ¬ now - t ≥ 3600 := by
  induction l with
  | nil => left; rfl
  | cons t ts ih =>
    rw [BotPy.purge]
    split
    · exact ih
    · right; exact ⟨t, ts, rfl, by assumption⟩

theorem purge_bot_idem (now : Int) (l : List Int) :
    BotPy.purge now (BotPy.purge now l) = BotPy.purge now l := by
  rcases purge_bot_head now l with h | ⟨t, ts, h, hle⟩
  · rw [h]; rfl
  · rw [h, BotPy.purge, if_neg hle]

/-- On a chronologically sorted window, the lazy front purge of src/main.py
keeps exactly the entries of age at most `W` — the strict comparison keeps an
entry whose age equals `W` exactly. -/
theorem purge_sorted_eq_filter (now W : Int) (l : List Int)
    (h : l.Pairwise (· ≤ ·)) :
    MainPy.purge now W l = l.filter (fun t => decide (now - t ≤ W)) := by
  induction l with
  | nil => rfl
  | cons t ts ih =>
    rw [List.pairwise_cons] at h
    rw [MainPy.purge, List.filter_cons]
    by_cases hc : now - t > W
    · rw [if_pos hc]
      have : (decide (now - t ≤ W)) = false := by simp; omega
      rw [this]
      simp only [Bool.false_eq_true, if_false]
      exact ih h.2
    · rw [if_neg hc]
      have : (decide (now - t ≤ W)) = true := by simp; omega
      rw [this]
      simp only [if_true]
      have : ts.filter (fun u => decide (now - u ≤ W)) = ts := by
        rw [List.filter_eq_self]
        intro u hu
        have := h.1 u hu
        simp
        omega
      rw [this]

/-- Same statement for the src/bot.py purge, whose inclusive comparison drops
an entry whose age equals 3600 exactly. -/
theorem purge_bot_sorted_eq_filter (now : Int) (l : List Int)
    (h : l.Pairwise (· ≤ ·)) :
    BotPy.purge now l = l.filter (fun t => decide (now - t < 3600)) := by
  induction l with
  | nil => rfl
  | cons t ts ih =>
    rw [List.pairwise_cons] at h
    rw [BotPy.purge, List.filter_cons]
    by_cases hc : now - t ≥ 3600
    · rw [if_pos hc]
      have : (decide (now - t < 3600)) = false := by simp; omega
      rw [this]
      simp only [Bool.false_eq_true, if_false]
      exact ih h.2
    · rw [if_neg hc]
      have : (decide (now - t < 3600)) = true := by simp; omega
      rw [this]
      simp only [if_true]
      have : ts.filter (fun u => decide (now - u < 3600)) = ts := by
        rw [List.filter_eq_self]
        intro u hu
        have := h.1 u hu
        simp
        omega
      rw [this]

/-! ## Helper lemmas: admission-gated sequences stay within the quota -/

/-- The admission-gated discipline never lets the window grow past
`max_requests`. -/
theorem runAdmitted_length_le (ts : List Int) :
    ∀ rl : MainPy.RateLimiter, rl.requests.length ≤ rl.max_requests →
      (runAdmitted rl ts).requests.length ≤ (runAdmitted rl ts).max_requests := by
  induction ts with
  | nil => intro rl h; exact h
  | cons t ts ih =>
    intro rl h
    rw [runAdmitted]
    by_cases hok : (MainPy.purge t rl.time_window rl.requests).length < rl.max_requests
    · have : rl.can_request t =
          (true, { rl with requests := MainPy.purge t rl.time_window rl.requests }) := by
        rw [MainPy.RateLimiter.can_request]
        simp [hok]
      rw [this]
      simp only [if_true]
      apply ih
      simp [MainPy.RateLimiter.add_request]
      omega
    · have : rl.can_request t =
          (false, { rl with requests := MainPy.purge t rl.time_window rl.requests }) := by
        rw [MainPy.RateLimiter.can_request]
        simp [hok]
      rw [this]
      simp only [Bool.false_eq_true, if_false]
      apply ih
      simp
      have := purge_length_le t rl.time_window rl.requests
      omega

/-! ## Helper lemmas: session keys never start with a letter -/

theorem natToDigits_head (n : Nat) :
    ∃ c, (natToDigits n).head? = some c ∧
      c ∈ (['0','1','2','3','4','5','6','7','8','9'] : List Char) := by
  induction n using Nat.strong_induction_on with
  | _ n ih =>
    rw [natToDigits]
    split
    · next h =>
      refine ⟨Nat.digitChar n, rfl, ?_⟩
      interval_cases n <;> decide
    · next h =>
      have hlt : n / 10 < n := Nat.div_lt_self (by omega) (by omega)
      obtain ⟨c, hc, hmem⟩ := ih (n / 10) hlt
      refine ⟨c, ?_, hmem⟩
      rw [List.head?_append, hc]
      rfl

/-- The first character of `f"{chat_id}_{user_id}"` is a decimal digit or a
minus sign. -/
theorem mkKey_head (c u : Int) :
    ∃ ch, (mkKey c u).data.head? = some ch ∧
      ch ∈ ('-' :: ['0','1','2','3','4','5','6','7','8','9'] : List Char) := by
  show ∃ ch, (intToChars c ++ '_' :: intToChars u).head? = some ch ∧ _
  rw [intToChars]
  split
  · exact ⟨'-', rfl, by decide⟩
  · obtain ⟨ch, hch, hmem⟩ := natToDigits_head c.natAbs
    refine ⟨ch, ?_, by simp [hmem]⟩
    rw [List.head?_append, hch]
    rfl

/-- A string whose first character is neither a digit nor a minus sign is
never a stored session key `f"{chat_id}_{user_id}"`. -/
theorem ne_mkKey_of_head (k : String) (ch : Char) (hh : k.data.head? = some ch)
    (hch : ch ∉ ('-' :: ['0','1','2','3','4','5','6','7','8','9'] : List Char)) :
    ∀ c u : Int, k ≠ mkKey c u := by
  intro c u heq
  obtain ⟨ch2, hch2, hmem⟩ := mkKey_head c u
  rw [heq] at hh
  rw [hh] at hch2
  injection hch2 with h
  exact hch (h ▸ hmem)

/-- Looking up a string that is not key-shaped in a store whose keys all have
the shape `f"{chat_id}_{user_id}"` misses. -/
theorem lookup_miss {α : Type} (store : Store α)
    (hs : ∀ p ∈ store, ∃ c u : Int, p.1 = mkKey c u)
    (k : String) (hk : ∀ c u : Int, k ≠ mkKey c u) :
    lookupStore store k = none := by
  induction store with
  | nil => rfl
  | cons p rest ih =>
    obtain ⟨c, u, hp⟩ := hs p (by simp)
    rw [show p = (p.1, p.2) from rfl, lookupStore]
    rw [if_neg (by rw [hp]; intro h; exact hk c u (h ▸ rfl))]
    exact ih (fun q hq => hs q (by simp [hq]))

/-! ## Helper lemmas: callback-token parsing -/

theorem data_next (k : String) :
    ("next_" ++ k).data = 'n' :: 'e' :: 'x' :: 't' :: '_' :: k.data := by
  rw [String.data_append]; rfl

theorem data_prev (k : String) :
    ("prev_" ++ k).data = 'p' :: 'r' :: 'e' :: 'v' :: '_' :: k.data := by
  rw [String.data_append]; rfl

theorem data_refresh (k : String) :
    ("refresh_" ++ k).data =
      'r' :: 'e' :: 'f' :: 'r' :: 'e' :: 's' :: 'h' :: '_' :: k.data := by
  rw [String.data_append]; rfl

theorem data_filter_blue (k : String) :
    ("filter_blue_" ++ k).data =
      'f' :: 'i' :: 'l' :: 't' :: 'e' :: 'r' :: '_' :: 'b' :: 'l' :: 'u' :: 'e' :: '_' :: k.data := by
  rw [String.data_append]; rfl

theorem data_fbw (k : String) :
    ("filter_black_and_white_" ++ k).data =
      'f' :: 'i' :: 'l' :: 't' :: 'e' :: 'r' :: '_' :: 'b' :: 'l' :: 'a' :: 'c' :: 'k' :: '_' ::
      'a' :: 'n' :: 'd' :: '_' :: 'w' :: 'h' :: 'i' :: 't' :: 'e' :: '_' :: k.data := by
  rw [String.data_append]; rfl

theorem pySplit_next (k : String) : pySplit ("next_" ++ k) '_' 1 = ["next", k] := by
  unfold pySplit
  rw [data_next]
  simp [pySplitChars, splitFirstAux]

theorem pySplit_prev (k : String) : pySplit ("prev_" ++ k) '_' 1 = ["prev", k] := by
  unfold pySplit
  rw [data_prev]
  simp [pySplitChars, splitFirstAux]

theorem pySplit_refresh (k : String) :
    pySplit ("refresh_" ++ k) '_' 1 = ["refresh", k] := by
  unfold pySplit
  rw [data_refresh]
  simp [pySplitChars, splitFirstAux]

theorem pySplit_filter_blue_1 (k : String) :
    pySplit ("filter_blue_" ++ k) '_' 1 = ["filter", "blue_" ++ k] := by
  unfold pySplit
  rw [data_filter_blue]
  simp [pySplitChars, splitFirstAux, String.ext_iff, String.data_append]

theorem pySplit_filter_blue_2 (k : String) :
    pySplit ("filter_blue_" ++ k) '_' 2 = ["filter", "blue", k] := by
  unfold pySplit
  rw [data_filter_blue]
  simp [pySplitChars, splitFirstAux]

theorem pySplit_fbw_1 (k : String) :
    pySplit ("filter_black_and_white_" ++ k) '_' 1 =
      ["filter", "black_and_white_" ++ k] := by
  unfold pySplit
  rw [data_fbw]
  simp [pySplitChars, splitFirstAux, String.ext_iff, String.data_append]

theorem pySplit_fbw_2 (k : String) :
    pySplit ("filter_black_and_white_" ++ k) '_' 2 =
      ["filter", "black", "and_white_" ++ k] := by
  unfold pySplit
  rw [data_fbw]
  simp [pySplitChars, splitFirstAux, String.ext_iff, String.data_append]

theorem next_ne_refresh_random (k : String) : ("next_" ++ k) ≠ "refresh_random" := by
  intro h
  rw [String.ext_iff, data_next] at h
  simp at h

theorem prev_ne_refresh_random (k : String) : ("prev_" ++ k) ≠ "refresh_random" := by
  intro h
  rw [String.ext_iff, data_prev] at h
  simp at h

theorem filter_blue_ne_refresh_random (k : String) :
    ("filter_blue_" ++ k) ≠ "refresh_random" := by
  intro h
  rw [String.ext_iff, data_filter_blue] at h
  simp at h

theorem fbw_ne_refresh_random (k : String) :
    ("filter_black_and_white_" ++ k) ≠ "refresh_random" := by
  intro h
  rw [String.ext_iff, data_fbw] at h
  simp at h

/-- The token `"refresh_" ++ k` collides with the special `"refresh_random"` only
for `k = "random"`. -/
theorem refresh_ne_refresh_random (k : String) (hk : k ≠ "random") :
    ("refresh_" ++ k) ≠ "refresh_random" := by
  intro h
  rw [String.ext_iff, data_refresh] at h
  simp at h
  exact hk (String.ext h)

theorem and_white_head (k : String) :
    ("and_white_" ++ k).data.head? = some 'a' := by
  rw [String.data_append]; rfl

/-! ## Helper lemmas: navigation on a session -/

theorem button_next_single {α : Type} (k : String) (rs : List α) (q : String) (i : Int) :
    MainPy.button_handler ("next_" ++ k) [(k, ⟨rs, q, i⟩)] =
      (.navPhoto k ((i + 1) % (rs.length : Int)),
        [(k, ⟨rs, q, (i + 1) % (rs.length : Int)⟩)]) := by
  rw [MainPy.button_handler, if_neg (next_ne_refresh_random k)]
  simp [pySplit_next, lookupStore, updateStore]

theorem button_prev_single {α : Type} (k : String) (rs : List α) (q : String) (i : Int) :
    MainPy.button_handler ("prev_" ++ k) [(k, ⟨rs, q, i⟩)] =
      (.navPhoto k ((i - 1) % (rs.length : Int)),
        [(k, ⟨rs, q, (i - 1) % (rs.length : Int)⟩)]) := by
  rw [MainPy.button_handler, if_neg (prev_ne_refresh_random k)]
  simp [pySplit_prev, lookupStore, updateStore]

theorem iterate_next_index {α : Type} (k : String) (rs : List α) (q : String) :
    ∀ (n : Nat) (j : Int),
      MainPy.iterate_handler ("next_" ++ k) n [(k, ⟨rs, q, j % (rs.length : Int)⟩)] =
        [(k, ⟨rs, q, (j + n) % (rs.length : Int)⟩)] := by
  intro n
  induction n with
  | zero => intro j; simp [MainPy.iterate_handler]
  | succ m ih =>
    intro j
    rw [MainPy.iterate_handler, button_next_single]
    rw [Int.emod_add_emod]
    rw [ih (j + 1)]
    congr 2
    push_cast
    ring

/-- src/bot.py version of the same invariant, against the hard-coded limit of
50. -/
theorem runAdmittedBot_length_le (ts : List Int) :
    ∀ rl : BotPy.RateLimiter, rl.requests.length ≤ 50 →
      (runAdmittedBot rl ts).requests.length ≤ 50 := by
  induction ts with
  | nil => intro rl h; exact h
  | cons t ts ih =>
    intro rl h
    rw [runAdmittedBot]
    by_cases hok : (BotPy.purge t rl.requests).length < 50
    · have : rl.can_request t = (true, ⟨BotPy.purge t rl.requests⟩) := by
        rw [BotPy.RateLimiter.can_request]
        simp [hok]
      rw [this]
      simp only [if_true]
      apply ih
      simp [BotPy.RateLimiter.add]
      omega
    · have : rl.can_request t = (false, ⟨BotPy.purge t rl.requests⟩) := by
        rw [BotPy.RateLimiter.can_request]
        simp [hok]
      rw [this]
      simp only [Bool.false_eq_true, if_false]
      apply ih
      simp
      have := purge_bot_length_le t rl.requests
      omega

/-! ## Helper lemmas: behaviour of the request choke point -/

/-- When `can_request` says no, `_request` (src/main.py) raises the quota
error with the window merely purged, the quota not consumed, and no outbound
call issued. -/
theorem main_request_refused {α : Type} (rl : MainPy.RateLimiter) (tc tr : Int)
    (net : NetOutcome α) (h : (rl.can_request tc).1 = false) :
    MainPy._request rl tc tr net =
      ⟨(rl.can_request tc).2, false,
        .error (.quotaExceeded ((rl.can_request tc).2.get_reset_time tc))⟩ := by
  rcases hcr : rl.can_request tc with ⟨ok, rl1⟩
  rw [hcr] at h
  simp at h
  subst h
  rw [MainPy._request, hcr]
  simp

/-- When `can_request` says yes, `_request` (src/main.py) records exactly one
instant when an HTTP response exists — whatever the status code — and records
nothing when the GET ends in a timeout or a transport error. -/
theorem main_request_admitted {α : Type} (rl : MainPy.RateLimiter) (tc tr : Int)
    (h : (rl.can_request tc).1 = true) :
    (∀ (status : Nat) (body : α),
        (MainPy._request rl tc tr (.response status body)).limiter.requests =
          MainPy.purge tc rl.time_window rl.requests ++ [tr]) ∧
    (MainPy._request rl tc tr (.timeout : NetOutcome α)).limiter.requests =
      MainPy.purge tc rl.time_window rl.requests ∧
    (MainPy._request rl tc tr (.clientError : NetOutcome α)).limiter.requests =
      MainPy.purge tc rl.time_window rl.requests := by
  rcases hcr : rl.can_request tc with ⟨ok, rl1⟩
  rw [hcr] at h
  simp at h
  subst h
  have hrl1 : rl1.requests = MainPy.purge tc rl.time_window rl.requests ∧
      rl1.time_window = rl.time_window := by
    have := congrArg Prod.snd hcr
    simp [MainPy.RateLimiter.can_request] at this
    rw [← this]
    exact ⟨rfl, rfl⟩
  refine ⟨?_, ?_, ?_⟩
  · intro status body
    rw [MainPy._request, hcr]
    simp only [if_true]
    split
    · simp [MainPy.RateLimiter.add_request, hrl1.1]
    · split
      · simp [MainPy.RateLimiter.add_request, hrl1.1]
      · simp [MainPy.RateLimiter.add_request, hrl1.1]
  · rw [MainPy._request, hcr]
    simp [hrl1.1]
  · rw [MainPy._request, hcr]
    simp [hrl1.1]

/-- src/bot.py refusal: `request` raises before the GET; the window is only
purged. -/
theorem bot_request_refused {α : Type} (rl : BotPy.RateLimiter) (tc tr : Int)
    (net : NetOutcome α) (h : (rl.can_request tc).1 = false) :
    BotPy.request rl tc tr net =
      ⟨⟨BotPy.purge tc rl.requests⟩, false,
        .error (.quotaExceeded (some ((50 : Int) - (BotPy.purge tc rl.requests).length)))⟩ := by
  rcases hcr : rl.can_request tc with ⟨ok, rl1⟩
  rw [hcr] at h
  simp at h
  subst h
  have hrl1 : rl1 = ⟨BotPy.purge tc rl.requests⟩ := by
    have := congrArg Prod.snd hcr
    simp [BotPy.RateLimiter.can_request] at this
    exact this.symm
  subst hrl1
  rw [BotPy.request, hcr]
  simp [BotPy.RateLimiter.remaining, purge_bot_idem]

/-- src/bot.py admission: one instant recorded per HTTP response, none on
timeout or transport error. -/
theorem bot_request_admitted {α : Type} (rl : BotPy.RateLimiter) (tc tr : Int)
    (h : (rl.can_request tc).1 = true) :
    (∀ (status : Nat) (body : α),
        (BotPy.request rl tc tr (.response status body)).limiter.requests =
          BotPy.purge tc rl.requests ++ [tr]) ∧
    (BotPy.request rl tc tr (.timeout : NetOutcome α)).limiter.requests =
      BotPy.purge tc rl.requests ∧
    (BotPy.request rl tc tr (.clientError : NetOutcome α)).limiter.requests =
      BotPy.purge tc rl.requests := by
  rcases hcr : rl.can_request tc with ⟨ok, rl1⟩
  rw [hcr] at h
  simp at h
  subst h
  have hrl1 : rl1.requests = BotPy.purge tc rl.requests := by
    have := congrArg Prod.snd hcr
    simp [BotPy.RateLimiter.can_request] at this
    rw [← this]
  refine ⟨?_, ?_, ?_⟩
  · intro status body
    rw [BotPy.request, hcr]
    simp only [if_true]
    split
    · simp [BotPy.RateLimiter.add, hrl1]
    · split
      · simp [BotPy.RateLimiter.add, hrl1]
      · simp [BotPy.RateLimiter.add, hrl1]
  · rw [BotPy.request, hcr]
    simp [hrl1]
  · rw [BotPy.request, hcr]
    simp [hrl1]

end SplashBot

namespace SplashBot

/-- Claim C1 is false on the code: with a fresh limiter the admission check
passes and the outbound call is issued, yet when that call ends in a timeout
no timestamp is recorded — the attempt does NOT consume a quota slot, against
the claim that `recordRequest` runs regardless of transport failure. -/
theorem claim_C1_counterexample :
    ((⟨50, 3600, []⟩ : MainPy.RateLimiter).can_request 0).1 = true ∧
    (MainPy._request (⟨50, 3600, []⟩ : MainPy.RateLimiter) 0 0
        (NetOutcome.timeout : NetOutcome Nat)).outboundIssued = true ∧
    (MainPy._request (⟨50, 3600, []⟩ : MainPy.RateLimiter) 0 0
        (NetOutcome.timeout : NetOutcome Nat)).limiter.requests = [] := by
  decide

/-- Claim C1, amended: for every admitted outbound call, `add_request` runs
exactly once if and only if an HTTP response arrives (whatever its status
code, 429 and other errors included); on a timeout or a transport error the
admitted attempt records nothing and the window is merely purged.  Holds for
`_request` of src/main.py and `request` of src/bot.py alike. -/
theorem claim_C1_amended {α β : Type} (rl : MainPy.RateLimiter) (brl : BotPy.RateLimiter)
    (tc tr tcb trb : Int)
    (h : (rl.can_request tc).1 = true) (hb : (brl.can_request tcb).1 = true) :
    (∀ (status : Nat) (body : α),
        (MainPy._request rl tc tr (.response status body)).limiter.requests =
          MainPy.purge tc rl.time_window rl.requests ++ [tr]) ∧
    (MainPy._request rl tc tr (.timeout : NetOutcome α)).limiter.requests =
      MainPy.purge tc rl.time_window rl.requests ∧
    (MainPy._request rl tc tr (.clientError : NetOutcome α)).limiter.requests =
      MainPy.purge tc rl.time_window rl.requests ∧
    (∀ (status : Nat) (body : β),
        (BotPy.request brl tcb trb (.response status body)).limiter.requests =
          BotPy.purge tcb brl.requests ++ [trb]) ∧
    (BotPy.request brl tcb trb (.timeout : NetOutcome β)).limiter.requests =
      BotPy.purge tcb brl.requests ∧
    (BotPy.request brl tcb trb (.clientError : NetOutcome β)).limiter.requests =
      BotPy.purge tcb brl.requests := by
  obtain ⟨m1, m2, m3⟩ := main_request_admitted (α := α) rl tc tr h
  obtain ⟨b1, b2, b3⟩ := bot_request_admitted (α := β) brl tcb trb hb
  exact ⟨m1, m2, m3, b1, b2, b3⟩

/-- Witness for the amended claim C1 at a concrete admitted call. -/
theorem claim_C1_witness :
    ((⟨50, 3600, [100]⟩ : MainPy.RateLimiter).can_request 200).1 = true ∧
    ((⟨[100]⟩ : BotPy.RateLimiter).can_request 200).1 = true ∧
    ((∀ (status : Nat) (body : Nat),
        (MainPy._request (⟨50, 3600, [100]⟩ : MainPy.RateLimiter) 200 300
            (.response status body)).limiter.requests =
          MainPy.purge 200 3600 [100] ++ [300]) ∧
      (MainPy._request (⟨50, 3600, [100]⟩ : MainPy.RateLimiter) 200 300
          (.timeout : NetOutcome Nat)).limiter.requests = MainPy.purge 200 3600 [100] ∧
      (MainPy._request (⟨50, 3600, [100]⟩ : MainPy.RateLimiter) 200 300
          (.clientError : NetOutcome Nat)).limiter.requests = MainPy.purge 200 3600 [100] ∧
      (∀ (status : Nat) (body : Nat),
        (BotPy.request (⟨[100]⟩ : BotPy.RateLimiter) 200 300
            (.response status body)).limiter.requests = BotPy.purge 200 [100] ++ [300]) ∧
      (BotPy.request (⟨[100]⟩ : BotPy.RateLimiter) 200 300
          (.timeout : NetOutcome Nat)).limiter.requests = BotPy.purge 200 [100] ∧
      (BotPy.request (⟨[100]⟩ : BotPy.RateLimiter) 200 300
          (.clientError : NetOutcome Nat)).limiter.requests = BotPy.purge 200 [100]) :=
  ⟨by decide, by decide,
    claim_C1_amended (⟨50, 3600, [100]⟩ : MainPy.RateLimiter) (⟨[100]⟩ : BotPy.RateLimiter)
      200 300 200 300 (by decide) (by decide)⟩

end SplashBot

namespace SplashBot

theorem runAdmitted_max (ts : List Int) :
    ∀ rl : MainPy.RateLimiter, (runAdmitted rl ts).max_requests = rl.max_requests := by
  induction ts with
  | nil => intro rl; rfl
  | cons t ts ih =>
    intro rl
    rw [runAdmitted]
    rcases hcr : rl.can_request t with ⟨ok, rl1⟩
    have hrl1 : rl1.max_requests = rl.max_requests := by
      have := congrArg Prod.snd hcr
      simp [MainPy.RateLimiter.can_request] at this
      rw [← this]
    cases ok
    · simp only [Bool.false_eq_true, if_false]
      rw [ih rl1, hrl1]
    · simp only [if_true]
      rw [ih (rl1.add_request t)]
      simp [MainPy.RateLimiter.add_request, hrl1]

/-- Claim C3 is false on the code: `get_remaining` has no floor at 0.  After
a sequence of 51 bare `recordRequest` calls within the window, it returns
`-1`, which is negative — the code computes `max_requests - len(window)`
without the `floor 0` the claim states. -/
theorem claim_C3_counterexample :
    ((runCalls ⟨50, 3600, []⟩ (List.replicate 51 (RLCall.record 0))).get_remaining 0).1 = -1 ∧
    ((runCalls ⟨50, 3600, []⟩ (List.replicate 51 (RLCall.record 0))).get_remaining 0).1 < 0 := by
  decide

/-- Claim C3, amended: `remaining()` is the plain difference
`maxRequests - len(purged window)` with no flooring, so it can go negative
under un-admitted `recordRequest` sequences; but for every admission-gated
sequence (each record preceded by a successful `canRequest`, the discipline
the request path follows), it stays within `[0, maxRequests]`, in both
src/main.py and src/bot.py. -/
theorem claim_C3_amended (m : Nat) (W : Int) (ts : List Int) (t : Int)
    (tsb : List Int) (tb : Int) :
    0 ≤ ((runAdmitted ⟨m, W, []⟩ ts).get_remaining t).1 ∧
    ((runAdmitted ⟨m, W, []⟩ ts).get_remaining t).1 ≤ m ∧
    0 ≤ ((runAdmittedBot ⟨[]⟩ tsb).remaining tb).1 ∧
    ((runAdmittedBot ⟨[]⟩ tsb).remaining tb).1 ≤ 50 := by
  have hlen := runAdmitted_length_le ts ⟨m, W, []⟩ (by simp)
  have hmax : (runAdmitted ⟨m, W, []⟩ ts).max_requests = m := runAdmitted_max ts ⟨m, W, []⟩
  have hpl := purge_length_le t (runAdmitted ⟨m, W, []⟩ ts).time_window
    (runAdmitted ⟨m, W, []⟩ ts).requests
  have hlenb := runAdmittedBot_length_le tsb ⟨[]⟩ (by simp)
  have hplb := purge_bot_length_le tb (runAdmittedBot ⟨[]⟩ tsb).requests
  rw [hmax] at hlen
  refine ⟨?_, ?_, ?_, ?_⟩
  · show 0 ≤ ((runAdmitted ⟨m, W, []⟩ ts).max_requests : Int) -
      (MainPy.purge t (runAdmitted ⟨m, W, []⟩ ts).time_window
        (runAdmitted ⟨m, W, []⟩ ts).requests).length
    rw [hmax]
    omega
  · show ((runAdmitted ⟨m, W, []⟩ ts).max_requests : Int) -
      (MainPy.purge t (runAdmitted ⟨m, W, []⟩ ts).time_window
        (runAdmitted ⟨m, W, []⟩ ts).requests).length ≤ m
    rw [hmax]
    omega
  · show 0 ≤ (50 : Int) - (BotPy.purge tb (runAdmittedBot ⟨[]⟩ tsb).requests).length
    omega
  · show (50 : Int) - (BotPy.purge tb (runAdmittedBot ⟨[]⟩ tsb).requests).length ≤ 50
    omega

end SplashBot

namespace SplashBot

/-- Claim C4 is false on src/main.py: its purge uses a strict comparison, so
an entry whose age is exactly `time_window` is NOT purged and still counts.
With `max_requests = 1`, window `[0]` and `now = 3600`, the code refuses the
request and keeps the entry, while the claimed inclusive-age purge would drop
it and admit. -/
theorem claim_C4_counterexample :
    ((⟨1, 3600, [0]⟩ : MainPy.RateLimiter).can_request 3600).1 = false ∧
    (can_request_claimed 3600 ⟨1, 3600, [0]⟩).1 = true ∧
    ((⟨1, 3600, [0]⟩ : MainPy.RateLimiter).can_request 3600).2.requests = [0] ∧
    (can_request_claimed 3600 ⟨1, 3600, [0]⟩).2.requests = [] := by
  decide

/-- Claim C4, amended: on a chronological window, src/main.py's
`can_request` purges exactly the entries with age strictly greater than
`time_window` — an entry aged exactly `time_window` still counts toward the
quota — and then returns `len(window) < max_requests`; src/bot.py's
`can_request` purges inclusively (age ≥ 3600 dropped) as the claim said. -/
theorem claim_C4_amended (rl : MainPy.RateLimiter) (brl : BotPy.RateLimiter) (now : Int)
    (h : rl.requests.Pairwise (· ≤ ·)) (hb : brl.requests.Pairwise (· ≤ ·)) :
    (rl.can_request now).2.requests =
      rl.requests.filter (fun t => decide (now - t ≤ rl.time_window)) ∧
    (rl.can_request now).1 =
      decide ((rl.requests.filter (fun t => decide (now - t ≤ rl.time_window))).length
        < rl.max_requests) ∧
    (∀ t ∈ rl.requests, now - t = rl.time_window → t ∈ (rl.can_request now).2.requests) ∧
    (brl.can_request now).2.requests =
      brl.requests.filter (fun t => decide (now - t < 3600)) ∧
    (brl.can_request now).1 =
      decide ((brl.requests.filter (fun t => decide (now - t < 3600))).length < 50) ∧
    (∀ t ∈ brl.requests, now - t = 3600 → t ∉ (brl.can_request now).2.requests) := by
  have hm := purge_sorted_eq_filter now rl.time_window rl.requests h
  have hbm := purge_bot_sorted_eq_filter now brl.requests hb
  refine ⟨?_, ?_, ?_, ?_, ?_, ?_⟩
  · show MainPy.purge now rl.time_window rl.requests = _
    exact hm
  · show decide ((MainPy.purge now rl.time_window rl.requests).length < rl.max_requests) = _
    rw [hm]
  · intro t ht hage
    show t ∈ MainPy.purge now rl.time_window rl.requests
    rw [hm, List.mem_filter]
    exact ⟨ht, by simp; omega⟩
  · show BotPy.purge now brl.requests = _
    exact hbm
  · show decide ((BotPy.purge now brl.requests).length < 50) = _
    rw [hbm]
  · intro t ht hage
    show t ∉ BotPy.purge now brl.requests
    rw [hbm, List.mem_filter]
    intro hcon
    have := hcon.2
    simp at this
    omega

/-- Witness for the amended claim C4 on a concrete sorted window. -/
theorem claim_C4_witness :
    ([0, 5] : List Int).Pairwise (· ≤ ·) ∧
    ([0, 5] : List Int).Pairwise (· ≤ ·) ∧
    (((⟨1, 3600, [0, 5]⟩ : MainPy.RateLimiter).can_request 3600).2.requests =
        ([0, 5] : List Int).filter (fun t => decide ((3600 : Int) - t ≤ 3600)) ∧
      ((⟨1, 3600, [0, 5]⟩ : MainPy.RateLimiter).can_request 3600).1 =
        decide ((([0, 5] : List Int).filter
          (fun t => decide ((3600 : Int) - t ≤ 3600))).length < 1) ∧
      (∀ t ∈ ([0, 5] : List Int), (3600 : Int) - t = 3600 →
        t ∈ ((⟨1, 3600, [0, 5]⟩ : MainPy.RateLimiter).can_request 3600).2.requests) ∧
      ((⟨[0, 5]⟩ : BotPy.RateLimiter).can_request 3600).2.requests =
        ([0, 5] : List Int).filter (fun t => decide ((3600 : Int) - t < 3600)) ∧
      ((⟨[0, 5]⟩ : BotPy.RateLimiter).can_request 3600).1 =
        decide ((([0, 5] : List Int).filter
          (fun t => decide ((3600 : Int) - t < 3600))).length < 50) ∧
      (∀ t ∈ ([0, 5] : List Int), (3600 : Int) - t = 3600 →
        t ∉ ((⟨[0, 5]⟩ : BotPy.RateLimiter).can_request 3600).2.requests)) :=
  ⟨by decide, by decide,
    claim_C4_amended ⟨1, 3600, [0, 5]⟩ ⟨[0, 5]⟩ 3600 (by decide) (by decide)⟩

end SplashBot

namespace SplashBot

/-- Claim C5: whenever `canRequest()` is false, `get_random_photo` and
`search_photos` (src/main.py) and `request` (src/bot.py) fail with the quota
error before issuing any outbound call (`outboundIssued = false`), and the
window is left exactly as the lazy purge leaves it — no timestamp is
appended on refusal. -/
theorem claim_C5 {α β : Type} (rl : MainPy.RateLimiter) (brl : BotPy.RateLimiter)
    (tc tr tcb trb : Int) (net : NetOutcome α) (netb : NetOutcome β)
    (q orient : Option String) (sq : String) (page per_page : Nat)
    (ors cls : Option String)
    (h : (rl.can_request tc).1 = false) (hb : (brl.can_request tcb).1 = false) :
    MainPy.get_random_photo rl q orient tc tr net =
      ⟨(rl.can_request tc).2, false,
        .error (.quotaExceeded ((rl.can_request tc).2.get_reset_time tc))⟩ ∧
    MainPy.search_photos rl sq page per_page ors cls tc tr net =
      ⟨(rl.can_request tc).2, false,
        .error (.quotaExceeded ((rl.can_request tc).2.get_reset_time tc))⟩ ∧
    (rl.can_request tc).2.requests = MainPy.purge tc rl.time_window rl.requests ∧
    BotPy.request brl tcb trb netb =
      ⟨⟨BotPy.purge tcb brl.requests⟩, false,
        .error (.quotaExceeded (some ((50 : Int) - (BotPy.purge tcb brl.requests).length)))⟩ := by
  refine ⟨?_, ?_, ?_, ?_⟩
  · exact main_request_refused rl tc tr net h
  · exact main_request_refused rl tc tr net h
  · simp [MainPy.RateLimiter.can_request]
  · exact bot_request_refused brl tcb trb netb hb

/-- Witness for claim C5 at concrete exhausted limiters. -/
theorem claim_C5_witness :
    ((⟨0, 3600, []⟩ : MainPy.RateLimiter).can_request 0).1 = false ∧
    ((⟨List.replicate 50 0⟩ : BotPy.RateLimiter).can_request 0).1 = false ∧
    (MainPy.get_random_photo (⟨0, 3600, []⟩ : MainPy.RateLimiter) none none 0 0
        (NetOutcome.timeout : NetOutcome Nat) =
      ⟨((⟨0, 3600, []⟩ : MainPy.RateLimiter).can_request 0).2, false,
        .error (.quotaExceeded
          (((⟨0, 3600, []⟩ : MainPy.RateLimiter).can_request 0).2.get_reset_time 0))⟩ ∧
      MainPy.search_photos (⟨0, 3600, []⟩ : MainPy.RateLimiter) "ocean" 1 5 none none 0 0
        (NetOutcome.timeout : NetOutcome Nat) =
      ⟨((⟨0, 3600, []⟩ : MainPy.RateLimiter).can_request 0).2, false,
        .error (.quotaExceeded
          (((⟨0, 3600, []⟩ : MainPy.RateLimiter).can_request 0).2.get_reset_time 0))⟩ ∧
      ((⟨0, 3600, []⟩ : MainPy.RateLimiter).can_request 0).2.requests =
        MainPy.purge 0 3600 [] ∧
      BotPy.request (⟨List.replicate 50 0⟩ : BotPy.RateLimiter) 0 0
          (NetOutcome.timeout : NetOutcome Nat) =
        ⟨⟨BotPy.purge 0 (List.replicate 50 0)⟩, false,
          .error (.quotaExceeded
            (some ((50 : Int) - (BotPy.purge 0 (List.replicate 50 0)).length)))⟩) :=
  ⟨by decide, by decide,
    claim_C5 (⟨0, 3600, []⟩ : MainPy.RateLimiter)
      (⟨List.replicate 50 0⟩ : BotPy.RateLimiter) 0 0 0 0
      (NetOutcome.timeout : NetOutcome Nat) (NetOutcome.timeout : NetOutcome Nat)
      none none "ocean" 1 5 none none (by decide) (by decide)⟩

/-- Claim C7: when a search returns zero results, `search_photos`
(src/main.py) replies "no results" and returns before the store write, so no
session is created under the key and any prior session stored under it is
untouched. -/
theorem claim_C7 {α : Type} (store : Store α) (chatId userId : Int) (q : String) :
    MainPy.search_photos_handler store chatId userId q (Except.ok []) =
      (store, .noResults) ∧
    lookupStore (MainPy.search_photos_handler store chatId userId q (Except.ok [])).1
        (mkKey chatId userId) = lookupStore store (mkKey chatId userId) := by
  exact ⟨rfl, rfl⟩

/-- Claim C8 is false on src/main.py: `track_download` awaits the lazy
`init_session()` OUTSIDE its `try`, so an error raised while creating the
HTTP session propagates to the caller (and the tracking GET is never even
attempted), against the claim that every failure is swallowed. -/
theorem claim_C8_counterexample :
    MainPy.track_download (Except.error "boom") (Except.ok ()) =
      (Except.error "boom", 0) ∧
    (Except.error "boom" : Except String Unit) ≠ Except.ok () := by
  decide

/-- Claim C8, amended: src/bot.py's `track_download` never propagates any
failure and never retries (at most one GET); src/main.py's swallows failures
of the tracking GET itself and never retries, but an error from the lazy
session creation escapes to the caller. -/
theorem claim_C8_amended (initOutcome getOutcome : Except String Unit) :
    (BotPy.track_download initOutcome getOutcome).1 = Except.ok () ∧
    (BotPy.track_download initOutcome getOutcome).2 ≤ 1 ∧
    MainPy.track_download (Except.ok ()) getOutcome = (Except.ok (), 1) ∧
    (MainPy.track_download initOutcome getOutcome).2 ≤ 1 := by
  cases initOutcome <;>
    simp [BotPy.track_download, MainPy.track_download]

end SplashBot

namespace SplashBot

/-- Claim C2 is false on the code: a `next` (or `refresh`) callback whose
key is missing from the store matches no branch of `button_handler` and does
nothing at all, and a filter callback with a missing key issues a FILTERED
search for the literal query "random" — neither falls back to an unfiltered
random photo as claimed. -/
theorem claim_C2_counterexample :
    MainPy.button_handler "next_1_2" ([] : Store Nat) = (.nothing, []) ∧
    MainPy.button_handler "refresh_1_2" ([] : Store Nat) = (.nothing, []) ∧
    (MainPy.button_handler "filter_blue_1_2" ([] : Store Nat)).1 =
      MainPy.Effect.filterSearch "random" none (some "blue") ∧
    (MainPy.Effect.nothing : MainPy.Effect Nat) ≠ MainPy.Effect.randomPhoto none ∧
    (MainPy.Effect.filterSearch "random" none (some "blue") : MainPy.Effect Nat) ≠
      MainPy.Effect.randomPhoto none := by
  decide

/-- Claim C2, amended: on a missing session key, `next`/`prev`/`refresh`
callbacks fall through `button_handler` without any action or message;
a filter callback falls back to a filtered search with the literal query
"random"; only the literal token "refresh_random" produces an unfiltered
random photo. -/
theorem claim_C2_amended {α : Type} (store : Store α) (key : String)
    (h : lookupStore store key = none) (hk : key ≠ "random") :
    MainPy.button_handler ("next_" ++ key) store = (.nothing, store) ∧
    MainPy.button_handler ("prev_" ++ key) store = (.nothing, store) ∧
    MainPy.button_handler ("refresh_" ++ key) store = (.nothing, store) ∧
    MainPy.button_handler ("filter_blue_" ++ key) store =
      (.filterSearch "random" none (some "blue"), store) ∧
    MainPy.button_handler "refresh_random" store = (.randomPhoto none, store) := by
  refine ⟨?_, ?_, ?_, ?_, ?_⟩
  · rw [MainPy.button_handler, if_neg (next_ne_refresh_random key)]
    simp [pySplit_next, h]
  · rw [MainPy.button_handler, if_neg (prev_ne_refresh_random key)]
    simp [pySplit_prev, h]
  · rw [MainPy.button_handler, if_neg (refresh_ne_refresh_random key hk)]
    simp [pySplit_refresh, h]
  · rw [MainPy.button_handler, if_neg (filter_blue_ne_refresh_random key)]
    simp [pySplit_filter_blue_1, pySplit_filter_blue_2, h]
  · rw [MainPy.button_handler, if_pos rfl]

/-- Witness for the amended claim C2 on the empty store. -/
theorem claim_C2_witness :
    lookupStore ([] : Store Nat) "9_9" = none ∧
    ("9_9" : String) ≠ "random" ∧
    (MainPy.button_handler ("next_" ++ "9_9") ([] : Store Nat) = (.nothing, []) ∧
      MainPy.button_handler ("prev_" ++ "9_9") ([] : Store Nat) = (.nothing, []) ∧
      MainPy.button_handler ("refresh_" ++ "9_9") ([] : Store Nat) = (.nothing, []) ∧
      MainPy.button_handler ("filter_blue_" ++ "9_9") ([] : Store Nat) =
        (.filterSearch "random" none (some "blue"), []) ∧
      MainPy.button_handler "refresh_random" ([] : Store Nat) = (.randomPhoto none, [])) :=
  ⟨rfl, by decide, claim_C2_amended ([] : Store Nat) "9_9" rfl (by decide)⟩

end SplashBot

namespace SplashBot

theorem neg_one_emod (N : Nat) (h : 1 ≤ N) :
    ((0 : Int) - 1) % (N : Int) = (N : Int) - 1 := by
  have h1 : ((0 : Int) - 1) % (N : Int) = ((0 : Int) - 1 + (N : Int) * 1) % (N : Int) :=
    (Int.add_mul_emod_self_left _ _ _).symm
  rw [h1]
  rw [show ((0 : Int) - 1 + (N : Int) * 1) = (N : Int) - 1 from by ring]
  exact Int.emod_eq_of_lt (by omega) (by omega)

/-- Claim C6: navigation wraps modulo the result count.  For a session over
N ≥ 1 results at cursor 0, pressing `next` N times returns the store to
cursor 0; pressing `prev` once from cursor 0 lands on cursor N-1; and from
any in-range cursor both `next` and `prev` produce the wrapped in-range
cursor — never an out-of-range index or a boundary error (Python's `%` on a
positive modulus is the Euclidean `%` used here). -/
theorem claim_C6 {α : Type} (key : String) (rs : List α) (q : String)
    (hN : 1 ≤ rs.length) :
    MainPy.iterate_handler ("next_" ++ key) rs.length [(key, ⟨rs, q, 0⟩)] =
      [(key, ⟨rs, q, 0⟩)] ∧
    (MainPy.button_handler ("prev_" ++ key) [(key, ⟨rs, q, 0⟩)]).2 =
      [(key, ⟨rs, q, (rs.length : Int) - 1⟩)] ∧
    (∀ i : Int, 0 ≤ i → i < (rs.length : Int) →
      ((MainPy.button_handler ("next_" ++ key) [(key, ⟨rs, q, i⟩)]).2 =
          [(key, ⟨rs, q, (i + 1) % (rs.length : Int)⟩)] ∧
        0 ≤ (i + 1) % (rs.length : Int) ∧
        (i + 1) % (rs.length : Int) < (rs.length : Int) ∧
        (MainPy.button_handler ("prev_" ++ key) [(key, ⟨rs, q, i⟩)]).2 =
          [(key, ⟨rs, q, (i - 1) % (rs.length : Int)⟩)] ∧
        0 ≤ (i - 1) % (rs.length : Int) ∧
        (i - 1) % (rs.length : Int) < (rs.length : Int))) := by
  have hL : (0 : Int) < (rs.length : Int) := by exact_mod_cast hN
  refine ⟨?_, ?_, ?_⟩
  · rw [show ([(key, (⟨rs, q, 0⟩ : SessionData α))]) =
        [(key, ⟨rs, q, (0 : Int) % (rs.length : Int)⟩)] from by rw [Int.zero_emod]]
    rw [iterate_next_index]
    simp [Int.emod_self]
  · rw [button_prev_single]
    rw [neg_one_emod rs.length hN]
  · intro i h0 hiL
    refine ⟨?_, ?_, ?_, ?_, ?_, ?_⟩
    · rw [button_next_single]
    · exact Int.emod_nonneg _ (by omega)
    · exact Int.emod_lt_of_pos _ hL
    · rw [button_prev_single]
    · exact Int.emod_nonneg _ (by omega)
    · exact Int.emod_lt_of_pos _ hL

/-- Witness for claim C6 on a concrete three-photo session. -/
theorem claim_C6_witness :
    1 ≤ ([10, 20, 30] : List Nat).length ∧
    (MainPy.iterate_handler ("next_" ++ "1_2") ([10, 20, 30] : List Nat).length
        [("1_2", ⟨[10, 20, 30], "ocean", 0⟩)] = [("1_2", ⟨[10, 20, 30], "ocean", 0⟩)] ∧
      (MainPy.button_handler ("prev_" ++ "1_2")
          [("1_2", (⟨[10, 20, 30], "ocean", 0⟩ : SessionData Nat))]).2 =
        [("1_2", ⟨[10, 20, 30], "ocean", (([10, 20, 30] : List Nat).length : Int) - 1⟩)] ∧
      (∀ i : Int, 0 ≤ i → i < (([10, 20, 30] : List Nat).length : Int) →
        ((MainPy.button_handler ("next_" ++ "1_2")
              [("1_2", (⟨[10, 20, 30], "ocean", i⟩ : SessionData Nat))]).2 =
            [("1_2", ⟨[10, 20, 30], "ocean",
              (i + 1) % (([10, 20, 30] : List Nat).length : Int)⟩)] ∧
          0 ≤ (i + 1) % (([10, 20, 30] : List Nat).length : Int) ∧
          (i + 1) % (([10, 20, 30] : List Nat).length : Int) <
            (([10, 20, 30] : List Nat).length : Int) ∧
          (MainPy.button_handler ("prev_" ++ "1_2")
              [("1_2", (⟨[10, 20, 30], "ocean", i⟩ : SessionData Nat))]).2 =
            [("1_2", ⟨[10, 20, 30], "ocean",
              (i - 1) % (([10, 20, 30] : List Nat).length : Int)⟩)] ∧
          0 ≤ (i - 1) % (([10, 20, 30] : List Nat).length : Int) ∧
          (i - 1) % (([10, 20, 30] : List Nat).length : Int) <
            (([10, 20, 30] : List Nat).length : Int)))) :=
  ⟨by decide, claim_C6 "1_2" ([10, 20, 30] : List Nat) "ocean" (by decide)⟩

/-- Claim C9: for the token the B&W button emits,
`"filter_black_and_white_<chatId>_<userId>"`, the two-split on underscore
yields filter type "black" and key `"and_white_<chatId>_<userId>"`; that key
never matches a stored session key `f"{chat_id}_{user_id}"` (those start
with a digit or a minus sign, never the letter a), so the query falls back
to the literal "random" and the search is issued with color "black", not
"black_and_white". -/
theorem claim_C9 {α : Type} (c u : Int) (store : Store α)
    (hs : ∀ p ∈ store, ∃ c2 u2 : Int, p.1 = mkKey c2 u2) :
    pySplit ("filter_black_and_white_" ++ mkKey c u) '_' 2 =
      ["filter", "black", "and_white_" ++ mkKey c u] ∧
    lookupStore store ("and_white_" ++ mkKey c u) = none ∧
    MainPy.button_handler ("filter_black_and_white_" ++ mkKey c u) store =
      (.filterSearch "random" none (some "black"), store) := by
  have hmiss : lookupStore store ("and_white_" ++ mkKey c u) = none :=
    lookup_miss store hs _
      (ne_mkKey_of_head _ 'a' (and_white_head (mkKey c u)) (by decide))
  refine ⟨pySplit_fbw_2 (mkKey c u), hmiss, ?_⟩
  rw [MainPy.button_handler, if_neg (fbw_ne_refresh_random (mkKey c u))]
  simp [pySplit_fbw_1, pySplit_fbw_2, hmiss]

/-- Witness for claim C9 at concrete chat and user ids. -/
theorem claim_C9_witness :
    (∀ p ∈ ([(mkKey 1 2, ⟨[7], "ocean", 0⟩)] : Store Nat),
      ∃ c2 u2 : Int, p.1 = mkKey c2 u2) ∧
    (pySplit ("filter_black_and_white_" ++ mkKey 5 7) '_' 2 =
        ["filter", "black", "and_white_" ++ mkKey 5 7] ∧
      lookupStore ([(mkKey 1 2, ⟨[7], "ocean", 0⟩)] : Store Nat)
        ("and_white_" ++ mkKey 5 7) = none ∧
      MainPy.button_handler ("filter_black_and_white_" ++ mkKey 5 7)
          ([(mkKey 1 2, ⟨[7], "ocean", 0⟩)] : Store Nat) =
        (.filterSearch "random" none (some "black"),
          ([(mkKey 1 2, ⟨[7], "ocean", 0⟩)] : Store Nat))) :=
  ⟨by intro p hp
      rw [List.mem_singleton] at hp
      exact ⟨1, 2, by rw [hp]⟩,
    claim_C9 5 7 ([(mkKey 1 2, ⟨[7], "ocean", 0⟩)] : Store Nat)
      (by intro p hp
          rw [List.mem_singleton] at hp
          exact ⟨1, 2, by rw [hp]⟩)⟩

end SplashBot

namespace SplashBot

/-- Claim C10 is false on the code: there is no lock, and the admission
check and the record are separated by the awaited network call, so with one
slot left (49 of 50 used) the interleaving check1-check2-record1-record2
admits BOTH tasks and the window overshoots to 51 entries. -/
theorem claim_C10_counterexample :
    (runSchedule 0 [true, false, true, false]
        (⟨50, 3600, List.replicate 49 0⟩, Phase.start, Phase.start)).2.1 = Phase.recorded ∧
    (runSchedule 0 [true, false, true, false]
        (⟨50, 3600, List.replicate 49 0⟩, Phase.start, Phase.start)).2.2 = Phase.recorded ∧
    (runSchedule 0 [true, false, true, false]
        (⟨50, 3600, List.replicate 49 0⟩, Phase.start, Phase.start)).1.requests.length = 51 := by
  decide

/-- Claim C10, amended: the check-and-increment is NOT atomic.  With
exactly one slot remaining, a schedule that runs one admission transaction
to completion before the other starts admits exactly one task and refuses
the other, but the interleaving in which both tasks check before either
records admits both and pushes the window one past `max_requests`. -/
theorem claim_C10_amended (rl : MainPy.RateLimiter) (now : Int)
    (hW : 0 ≤ rl.time_window)
    (hslot : (MainPy.purge now rl.time_window rl.requests).length + 1 = rl.max_requests) :
    ((runSchedule now [true, true, false, false] (rl, Phase.start, Phase.start)).2.1 =
        Phase.recorded ∧
      (runSchedule now [true, true, false, false] (rl, Phase.start, Phase.start)).2.2 =
        Phase.refused) ∧
    ((runSchedule now [true, false, true, false] (rl, Phase.start, Phase.start)).2.1 =
        Phase.recorded ∧
      (runSchedule now [true, false, true, false] (rl, Phase.start, Phase.start)).2.2 =
        Phase.recorded ∧
      (runSchedule now [true, false, true, false]
          (rl, Phase.start, Phase.start)).1.requests.length = rl.max_requests + 1) := by
  have hlt : (MainPy.purge now rl.time_window rl.requests).length < rl.max_requests := by
    omega
  have hcr : rl.can_request now =
      (true, { rl with requests := MainPy.purge now rl.time_window rl.requests }) := by
    rw [MainPy.RateLimiter.can_request]
    simp [hlt]
  have hcrP : MainPy.RateLimiter.can_request now
        { rl with requests := MainPy.purge now rl.time_window rl.requests } =
      (true, { rl with requests := MainPy.purge now rl.time_window rl.requests }) := by
    rw [MainPy.RateLimiter.can_request]
    simp [purge_idem, hlt]
  have hcr2 : MainPy.RateLimiter.can_request now
        { rl with requests := MainPy.purge now rl.time_window rl.requests ++ [now] } =
      (false, { rl with requests := MainPy.purge now rl.time_window rl.requests ++ [now] }) := by
    rw [MainPy.RateLimiter.can_request]
    simp [purge_append_now now rl.time_window hW]
    omega
  refine ⟨?_, ?_⟩
  · simp [runSchedule, stepTask, hcr, hcr2, MainPy.RateLimiter.add_request]
  · simp [runSchedule, stepTask, hcr, hcrP, MainPy.RateLimiter.add_request]
    omega

/-- Witness for the amended claim C10 at a concrete 49-of-50 window. -/
theorem claim_C10_witness :
    (0 : Int) ≤ (3600 : Int) ∧
    (MainPy.purge 0 3600 (List.replicate 49 0)).length + 1 = 50 ∧
    (((runSchedule 0 [true, true, false, false]
          ((⟨50, 3600, List.replicate 49 0⟩ : MainPy.RateLimiter),
            Phase.start, Phase.start)).2.1 = Phase.recorded ∧
      (runSchedule 0 [true, true, false, false]
          ((⟨50, 3600, List.replicate 49 0⟩ : MainPy.RateLimiter),
            Phase.start, Phase.start)).2.2 = Phase.refused) ∧
      ((runSchedule 0 [true, false, true, false]
          ((⟨50, 3600, List.replicate 49 0⟩ : MainPy.RateLimiter),
            Phase.start, Phase.start)).2.1 = Phase.recorded ∧
        (runSchedule 0 [true, false, true, false]
            ((⟨50, 3600, List.replicate 49 0⟩ : MainPy.RateLimiter),
              Phase.start, Phase.start)).2.2 = Phase.recorded ∧
        (runSchedule 0 [true, false, true, false]
            ((⟨50, 3600, List.replicate 49 0⟩ : MainPy.RateLimiter),
              Phase.start, Phase.start)).1.requests.length = 50 + 1)) :=
  ⟨by decide, by decide,
    claim_C10_amended (⟨50, 3600, List.replicate 49 0⟩ : MainPy.RateLimiter) 0
      (by decide) (by decide)⟩

end SplashBot
